import Mathlib

/-!
Verification development for the two-stage text-to-image generation pipeline
with bounded session history implemented in `src/app.py` (`generate_image`,
lines 170-296, and the style-suffix guard, lines 367-369).

The shallow embedding models:
* the session state mutated by the pipeline (`prompt_history`,
  `generated_images`, `current_image` from `st.session_state`);
* the environment of one invocation (outcomes of the two outbound calls and
  of the decode / re-encode steps), so that every control path of the Python
  function corresponds to a value of `Env`;
* the exception structure: each `try` block is a function into `Except`,
  whose error value carries the session state at raise time (Python
  exceptions do not roll back mutations), and each `except` handler is an
  explicit match on that `Except`;
* the capacity-10 FIFO history append (`append` followed by a conditional
  `pop(0)`, lines 275-277 and 283-285) as `historyAppend`;
* the outbound Stability request construction (lines 239-256) as
  `buildStabilityRequest`, with the list of issued POSTs recorded in the
  result;
* the style-suffix templating (lines 367-369) on strings modelled as lists
  of code points (`pyLower`, `applyStyle`).

Opaque binary payloads (PIL image objects, PNG byte strings) are modelled as
`Nat` identifiers: the pipeline never inspects them, it only moves them.
-/

/-- Session state held in `st.session_state` (lines 23-28):
`prompt_history` is a list of `(prompt, enhanced_prompt)` pairs,
`generated_images` a list of `(img_data, prompt, enhanced_prompt)` triples,
`current_image` the `(image, img_data)` pair of the last success. -/
structure SessionState where
  prompt_history : List (String × String)
  generated_images : List (Nat × String × String)
  current_image : Option (Nat × Nat)
deriving DecidableEq, Repr

/-- The empty session state (fresh session, lines 23-28). -/
def initialState : SessionState :=
  { prompt_history := [], generated_images := [], current_image := none }

/-- Arguments of `generate_image` (lines 170-180). -/
structure GenInput where
  text_prompt : String
  groq_api_key : String
  stability_api_key : String
  model_name : String
  enhance_prompt : Bool
  width : Nat
  height : Nat
  cfg_scale : Nat
  steps : Nat
deriving DecidableEq, Repr

/-- Environment of one invocation: outcomes of the external calls and of the
fallible decode/re-encode steps.
* `enhanceResult`: `some s` when the Groq completion succeeds with content
  `s` (lines 196-216); `none` when any exception is raised in that block.
* `uiExc`: `some m` when an unexpected exception (message `m`) is raised in
  the progress-display code between the two inner try blocks (lines
  230-235); it is caught only by the outer handler (line 294).
* `status`, `body`: HTTP status code and text of the Stability response
  (lines 256-262).
* `decodeResult`: `some image` when `response.json()`, the artifact lookup,
  `base64.b64decode` and `Image.open` all succeed (lines 265-267); `none`
  when any of them raises.
* `saveResult`: `some img_data` when the PNG re-encode `image.save`
  succeeds (lines 280-282); `none` when it raises. -/
structure Env where
  enhanceResult : Option String
  uiExc : Option String
  status : Nat
  body : String
  decodeResult : Option Nat
  saveResult : Option Nat
deriving DecidableEq, Repr

/-- Messages surfaced to the user via `st.error` / `st.warning`,
abstracted as tags. -/
inductive UiMsg where
  /-- line 183: `st.error("⚠️ Please enter both API keys in the sidebar")` -/
  | errorMissingKeys : UiMsg
  /-- line 224: `st.error(f"⚠️ Error enhancing prompt: ...")` -/
  | errorEnhance : UiMsg
  /-- line 225: `st.warning("Continuing with your original prompt...")` -/
  | warnContinueOriginal : UiMsg
  /-- lines 260-261: `st.error(f"⚠️ Stability API Error: {code}")` and
  `st.write(response.text)` -/
  | errorStatus (code : Nat) (body : String) : UiMsg
  /-- line 291: `st.error(f"⚠️ Error generating image: ...")` -/
  | errorGenerate : UiMsg
  /-- line 295: `st.error(f"⚠️ An error occurred: {m}")` -/
  | errorOuter (m : String) : UiMsg
deriving DecidableEq, Repr

/-- The outbound Stability HTTP POST (url, headers and JSON body fields,
lines 239-256). -/
structure StabilityRequest where
  url : String
  authorization : String
  text_prompts : List String
  cfg_scale : Nat
  height : Nat
  width : Nat
  samples : Nat
  steps : Nat
deriving DecidableEq, Repr

/-- Fixed endpoint (line 239). -/
def stabilityUrl : String :=
  "https://api.stability.ai/v1/generation/stable-diffusion-xl-1024-v1-0/text-to-image"

/-- Construction of the Stability request (lines 241-254): bearer header
from the supplied key, JSON body with the final prompt, `cfg_scale`,
`height`, `width`, a fixed `samples = 1`, and `steps`. -/
def buildStabilityRequest (enhanced_prompt stability_api_key : String)
    (cfg_scale height width steps : Nat) : StabilityRequest :=
  { url := stabilityUrl
    authorization := "Bearer " ++ stability_api_key
    text_prompts := [enhanced_prompt]
    cfg_scale := cfg_scale
    height := height
    width := width
    samples := 1
    steps := steps }

/-- The capacity-10 FIFO append used for both history buffers
(lines 275-277 and 283-285): `append(x)` at the tail, then
`if len > 10: pop(0)` (evict the head). -/
def historyAppend {α : Type} (l : List α) (x : α) : List α :=
  let l' := l ++ [x]
  if l'.length > 10 then l'.tail else l'

/-- Exceptions modelled inside the generator try block. -/
inductive PyExc where
  | decodeFail : PyExc
  | saveFail : PyExc
deriving DecidableEq, Repr

/-- Outcome of the enhancement step (lines 190-227), `except` handler
(lines 223-227) already applied: the prompt to use downstream, the surfaced
messages, and the number of Groq call attempts (0 or 1). -/
structure EnhanceOut where
  enhanced : String
  msgs : List UiMsg
  groqCalls : Nat
deriving DecidableEq, Repr

/-- Step 1 of the pipeline (lines 187-227): if `enhance_prompt`, attempt the
Groq completion; on success use the stripped completion content (line 216),
on any exception surface an error and a warning and fall back to the raw
prompt (lines 223-227). Otherwise keep the raw prompt (line 187). -/
def enhanceStep (inp : GenInput) (env : Env) : EnhanceOut :=
  if inp.enhance_prompt then
    match env.enhanceResult with
    | some s => { enhanced := s.trim, msgs := [], groqCalls := 1 }
    | none =>
        { enhanced := inp.text_prompt
          msgs := [UiMsg.errorEnhance, UiMsg.warnContinueOriginal]
          groqCalls := 1 }
  else
    { enhanced := inp.text_prompt, msgs := [], groqCalls := 0 }

/-- Normal result of the generator try block. -/
structure GenStepOut where
  image : Option Nat
  state : SessionState
  msgs : List UiMsg
  posts : List StabilityRequest
deriving DecidableEq, Repr

/-- A raise inside the generator try block: the exception, the session
state at raise time (mutations before the raise persist), and the POSTs
already issued. -/
structure GenRaise where
  exc : PyExc
  state : SessionState
  posts : List StabilityRequest
deriving DecidableEq, Repr

/-- The generator try block (lines 237-288), before its `except` handler.
One POST is issued (line 256); a non-200 status returns `None` normally
(lines 259-262); a decode failure raises before any history mutation
(lines 265-267); then `(text_prompt, enhanced_prompt)` is appended to
`prompt_history` with eviction (lines 275-277); a PNG re-encode failure
raises after that mutation (lines 280-282); on success the image triple is
appended to `generated_images` with eviction (lines 283-285) and
`current_image` is set (line 287). -/
def generateTry (inp : GenInput) (env : Env) (enhanced : String)
    (st : SessionState) : Except GenRaise GenStepOut :=
  let req := buildStabilityRequest enhanced inp.stability_api_key
    inp.cfg_scale inp.height inp.width inp.steps
  if env.status ≠ 200 then
    Except.ok
      { image := none, state := st
        msgs := [UiMsg.errorStatus env.status env.body], posts := [req] }
  else
    match env.decodeResult with
    | none => Except.error { exc := PyExc.decodeFail, state := st, posts := [req] }
    | some image =>
        let ph := historyAppend st.prompt_history (inp.text_prompt, enhanced)
        match env.saveResult with
        | none =>
            Except.error
              { exc := PyExc.saveFail
                state := { st with prompt_history := ph }
                posts := [req] }
        | some img_data =>
            let gi := historyAppend st.generated_images
              (img_data, inp.text_prompt, enhanced)
            Except.ok
              { image := some image
                state :=
                  { prompt_history := ph
                    generated_images := gi
                    current_image := some (image, img_data) }
                msgs := []
                posts := [req] }

/-- The generator step with its `except` handler (lines 290-292) applied:
any raise in the try block yields a surfaced error and a `None` image,
keeping the state reached at raise time. -/
def generateStep (inp : GenInput) (env : Env) (enhanced : String)
    (st : SessionState) : GenStepOut :=
  match generateTry inp env enhanced st with
  | Except.ok r => r
  | Except.error r =>
      { image := none, state := r.state
        msgs := [UiMsg.errorGenerate], posts := r.posts }

/-- Result of one `generate_image` invocation: the returned value and the
observable effects (final session state, surfaced messages, number of Groq
call attempts, Stability POSTs issued). -/
structure GenResult where
  image : Option Nat
  state : SessionState
  msgs : List UiMsg
  groqCalls : Nat
  posts : List StabilityRequest
deriving DecidableEq, Repr

/-- A raise escaping to the outer handler (line 294): its message and the
observable effects at raise time. -/
structure OuterRaise where
  msg : String
  state : SessionState
  msgs : List UiMsg
  groqCalls : Nat
  posts : List StabilityRequest
deriving DecidableEq, Repr

/-- The outer try block (lines 186-292): enhancement step (its own handler
inside), then the progress-display region where an unexpected exception may
be raised (`env.uiExc`, lines 230-235), then the handled generator step. -/
def outerTry (inp : GenInput) (env : Env) (st : SessionState) :
    Except OuterRaise GenResult :=
  let e := enhanceStep inp env
  match env.uiExc with
  | some m =>
      Except.error
        { msg := m, state := st, msgs := e.msgs
          groqCalls := e.groqCalls, posts := [] }
  | none =>
      let g := generateStep inp env e.enhanced st
      Except.ok
        { image := g.image, state := g.state, msgs := e.msgs ++ g.msgs
          groqCalls := e.groqCalls, posts := g.posts }

/-- `generate_image` (lines 170-296): the key check before the try
(lines 182-184) returns `None` with an error and no external call; the
outer `except` handler (lines 294-296) converts any escaped exception into
a surfaced error and a `None` return, keeping the state and effects
reached at raise time. -/
def generate_image (inp : GenInput) (env : Env) (st : SessionState) :
    GenResult :=
  if inp.groq_api_key = "" ∨ inp.stability_api_key = "" then
    { image := none, state := st, msgs := [UiMsg.errorMissingKeys]
      groqCalls := 0, posts := [] }
  else
    match outerTry inp env st with
    | Except.ok r => r
    | Except.error r =>
        { image := none, state := r.state
          msgs := r.msgs ++ [UiMsg.errorOuter r.msg]
          groqCalls := r.groqCalls, posts := r.posts }

/-- The prompt actually sent to the Image Generator: the stripped Groq
completion when enhancement was requested and succeeded, the raw prompt
otherwise (lines 187-227). -/
def finalPrompt (inp : GenInput) (env : Env) : String :=
  if inp.enhance_prompt then
    match env.enhanceResult with
    | some s => s.trim
    | none => inp.text_prompt
  else
    inp.text_prompt

/-- The two history buffers are pairwise aligned: the prompt history is
exactly the projection of the image history to its
`(prompt, enhanced_prompt)` components (equal lengths included). -/
def aligned (st : SessionState) : Prop :=
  st.prompt_history = st.generated_images.map (fun t => (t.2.1, t.2.2))

instance (st : SessionState) : Decidable (aligned st) := by
  unfold aligned; infer_instance

/-- The one invocation shape that mutates only `prompt_history`: keys
present, 200 status, successful decode, failing PNG re-encode. -/
def savePartialFailure (inp : GenInput) (env : Env) : Prop :=
  inp.groq_api_key ≠ "" ∧ inp.stability_api_key ≠ "" ∧ env.uiExc = none ∧
    env.status = 200 ∧ env.decodeResult.isSome ∧ env.saveResult = none

instance (inp : GenInput) (env : Env) : Decidable (savePartialFailure inp env) := by
  unfold savePartialFailure; infer_instance

/-- Session state after a sequence of invocations starting from `st`. -/
def runSequence (st : SessionState) (invs : List (GenInput × Env)) :
    SessionState :=
  invs.foldl (fun s ie => (generate_image ie.1 ie.2 s).state) st

/-- A Python string modelled as its list of code points. -/
abbrev PyStr := List Char

/-- `str.lower()` on the modelled strings (code-point-wise lowering; the
suffixes compared by the source are ASCII). -/
def pyLower (s : PyStr) : PyStr := s.map Char.toLower

/-- The options of the style selectbox (lines 327-332). -/
def styleOptions : List String :=
  ["None", "Photorealistic", "Digital Art", "Oil Painting", "Watercolor",
   "Anime", "Comic Book"]

/-- The style-suffix templating (lines 367-369): when a style other than
`"None"` is selected and the prompt is non-empty, append
`", in <style.lower()> style"` unless the lowered prompt already ends with
`"in <style.lower()> style"`. -/
def applyStyle (style p : PyStr) : PyStr :=
  if style ≠ "None".data ∧ p ≠ [] then
    if ("in ".data ++ pyLower style ++ " style".data).isSuffixOf (pyLower p) then
      p
    else
      p ++ ", in ".data ++ pyLower style ++ " style".data
  else p

/-- Sample invocation input: the end-to-end test vector of the spec. -/
def sampleInput : GenInput :=
  { text_prompt := "a red fox in snow", groq_api_key := "g"
    stability_api_key := "s", model_name := "m", enhance_prompt := false
    width := 512, height := 512, cfg_scale := 7, steps := 30 }

/-- Environment of a fully successful invocation. -/
def envSuccess : Env :=
  { enhanceResult := none, uiExc := none, status := 200, body := ""
    decodeResult := some 1, saveResult := some 2 }

/-- Environment whose only failure is the PNG re-encode (`image.save`
raising after `Image.open` succeeded, e.g. on a truncated payload). -/
def envSaveFail : Env :=
  { enhanceResult := none, uiExc := none, status := 200, body := ""
    decodeResult := some 1, saveResult := none }

/- ------------------------------------------------------------------ -/
/- Helper lemmas about the capacity-10 FIFO append.                    -/
/- ------------------------------------------------------------------ -/

theorem tail_append_singleton {α : Type} (l : List α) (x : α) (h : l ≠ []) :
    (l ++ [x]).tail = l.tail ++ [x] := by
  cases l with
  | nil => exact absurd rfl h
  | cons a t => rfl

theorem historyAppend_eq {α : Type} (l : List α) (x : α) (h : l.length ≤ 10) :
    historyAppend l x = (if l.length = 10 then l.tail else l) ++ [x] := by
  unfold historyAppend
  by_cases h10 : l.length = 10
  · have hgt : (l ++ [x]).length > 10 := by simp [h10]
    have hne : l ≠ [] := by
      intro e; rw [e] at h10; simp at h10
    rw [if_pos hgt, if_pos h10, tail_append_singleton l x hne]
  · have hlt : l.length < 10 := lt_of_le_of_ne h h10
    have hgt : ¬ (l ++ [x]).length > 10 := by simp; omega
    rw [if_neg hgt, if_neg h10]

theorem historyAppend_length_le {α : Type} (l : List α) (x : α)
    (h : l.length ≤ 10) : (historyAppend l x).length ≤ 10 := by
  rw [historyAppend_eq l x h]
  by_cases h10 : l.length = 10
  · rw [if_pos h10]; simp [List.length_tail, h10]
  · rw [if_neg h10]; simp; omega

theorem historyAppend_getLast? {α : Type} (l : List α) (x : α) :
    (historyAppend l x).getLast? = some x := by
  unfold historyAppend
  by_cases hgt : (l ++ [x]).length > 10
  · have hne : l ≠ [] := by
      intro e; rw [e] at hgt; simp at hgt
    rw [if_pos hgt, tail_append_singleton l x hne, List.getLast?_concat]
  · rw [if_neg hgt, List.getLast?_concat]

theorem foldl_historyAppend_fixed {α : Type} (xs : List α) (acc : List α)
    (h : (acc ++ xs).length ≤ 10) :
    List.foldl historyAppend acc xs = acc ++ xs := by
  induction xs generalizing acc with
  | nil => simp
  | cons y ys ih =>
      have hlen : (acc ++ [y]).length ≤ 10 := by
        simp at h ⊢; omega
      have hstep : historyAppend acc y = acc ++ [y] := by
        unfold historyAppend
        rw [if_neg (by simp at hlen ⊢; omega)]
      rw [List.foldl_cons, hstep, ih (acc ++ [y]) (by simpa using h)]
      simp

theorem foldl_historyAppend_length {α : Type} (xs : List α) (acc : List α)
    (h : acc.length ≤ 10) :
    (List.foldl historyAppend acc xs).length ≤ 10 := by
  induction xs generalizing acc with
  | nil => simpa using h
  | cons y ys ih =>
      rw [List.foldl_cons]
      exact ih (historyAppend acc y) (historyAppend_length_le acc y h)

theorem foldl_historyAppend_eleven {α : Type} (xs : List α)
    (h : xs.length = 11) :
    List.foldl historyAppend ([] : List α) xs = xs.tail := by
  have hne : xs ≠ [] := by
    intro e; rw [e] at h; simp at h
  have hdl : xs.dropLast.length = 10 := by
    simp [List.length_dropLast, h]
  have hx := List.dropLast_append_getLast hne
  have hdne : xs.dropLast ≠ [] := by
    intro e; rw [e] at hdl; simp at hdl
  conv_lhs => rw [← hx]
  rw [List.foldl_append,
    foldl_historyAppend_fixed xs.dropLast [] (by simpa using le_of_eq hdl)]
  simp only [List.nil_append, List.foldl_cons, List.foldl_nil]
  unfold historyAppend
  rw [if_pos (by simp [hdl]), tail_append_singleton _ _ hdne]
  conv_rhs => rw [← hx]
  rw [tail_append_singleton _ _ hdne]

theorem historyAppend_map {α β : Type} (f : α → β) (l : List α) (x : α) :
    (historyAppend l x).map f = historyAppend (l.map f) (f x) := by
  unfold historyAppend
  by_cases hgt : (l ++ [x]).length > 10
  · rw [if_pos hgt, if_pos (by simpa using hgt)]
    simp [List.map_tail]
  · rw [if_neg hgt, if_neg (by simpa using hgt)]
    simp

/- ------------------------------------------------------------------ -/
/- Style-suffix idempotence helper.                                    -/
/- ------------------------------------------------------------------ -/

theorem applyStyle_idem_aux (style : PyStr) (hnone : style ≠ "None".data)
    (hlow : pyLower (pyLower style) = pyLower style) (p : PyStr)
    (hp : p ≠ []) :
    applyStyle style (applyStyle style p) = applyStyle style p := by
  by_cases hend :
      ("in ".data ++ pyLower style ++ " style".data).isSuffixOf (pyLower p) = true
  · have h1 : applyStyle style p = p := by
      unfold applyStyle
      rw [if_pos ⟨hnone, hp⟩, if_pos hend]
    rw [h1]
    exact h1
  · have h1 : applyStyle style p =
        p ++ ", in ".data ++ pyLower style ++ " style".data := by
      unfold applyStyle
      rw [if_pos ⟨hnone, hp⟩, if_neg hend]
    rw [h1]
    have hne : p ++ ", in ".data ++ pyLower style ++ " style".data ≠ [] := by
      simp
    have hsuf :
        ("in ".data ++ pyLower style ++ " style".data).isSuffixOf
          (pyLower (p ++ ", in ".data ++ pyLower style ++ " style".data)) = true := by
      rw [List.isSuffixOf_iff_suffix]
      unfold pyLower at hlow ⊢
      simp only [List.map_append]
      rw [hlow]
      have h1 : List.map Char.toLower [',', ' ', 'i', 'n', ' '] =
          ([',', ' ', 'i', 'n', ' '] : List Char) := by decide
      have h2 : List.map Char.toLower [' ', 's', 't', 'y', 'l', 'e'] =
          ([' ', 's', 't', 'y', 'l', 'e'] : List Char) := by decide
      rw [h1, h2]
      simpa [List.append_assoc] using
        List.suffix_append
          (List.map Char.toLower p ++ ([',', ' '] : List Char))
          (['i', 'n', ' '] ++ List.map Char.toLower style ++
            ([' ', 's', 't', 'y', 'l', 'e'] : List Char))
    unfold applyStyle
    rw [if_pos ⟨hnone, hne⟩, if_pos hsuf]

/- ------------------------------------------------------------------ -/
/- Claim theorems.                                                     -/
/- ------------------------------------------------------------------ -/

/-- C2: for every sequence of appends on a history buffer, the length stays
in [0,10]; one append inserts at the tail, evicting exactly the head and
only when the length would exceed 10, so the tail is the most recently
appended item. -/
theorem claim_history_invariant (α : Type) (l : List α) (x : α)
    (xs : List α) (h : l.length ≤ 10) :
    (historyAppend l x).length ≤ 10 ∧
    historyAppend l x = (if l.length = 10 then l.tail else l) ++ [x] ∧
    (historyAppend l x).getLast? = some x ∧
    (List.foldl historyAppend ([] : List α) xs).length ≤ 10 :=
  ⟨historyAppend_length_le l x h, historyAppend_eq l x h,
    historyAppend_getLast? l x,
    foldl_historyAppend_length xs [] (by simp)⟩

theorem claim_history_invariant_witness :
    (([1, 2, 3] : List Nat).length ≤ 10) ∧
    ((historyAppend [1, 2, 3] 4).length ≤ 10 ∧
      historyAppend [1, 2, 3] 4 =
        (if ([1, 2, 3] : List Nat).length = 10 then
          List.tail [1, 2, 3] else [1, 2, 3]) ++ [4] ∧
      (historyAppend [1, 2, 3] 4).getLast? = some 4 ∧
      (List.foldl historyAppend ([] : List Nat) [5, 6, 7]).length ≤ 10) :=
  ⟨by decide, claim_history_invariant Nat [1, 2, 3] 4 [5, 6, 7] (by decide)⟩

/-- C3: appending 11 items in order to an initially empty capacity-10
buffer yields a sequence of length exactly 10 whose tail is the 11th item
and whose head is the 2nd item (the 1st was evicted). -/
theorem claim_history_eleven (α : Type) (xs : List α) (h : xs.length = 11) :
    (List.foldl historyAppend ([] : List α) xs).length = 10 ∧
    (List.foldl historyAppend ([] : List α) xs).getLast? = xs.getLast? ∧
    (List.foldl historyAppend ([] : List α) xs).head? = xs[1]? := by
  rw [foldl_historyAppend_eleven xs h]
  match xs, h with
  | a :: b :: t, h =>
      refine ⟨?_, ?_, ?_⟩
      · simp at h ⊢; omega
      · simp [List.getLast?_cons_cons]
      · simp

theorem claim_history_eleven_witness :
    (([0, 1, 2, 3, 4, 5, 6, 7, 8, 9, 10] : List Nat).length = 11) ∧
    ((List.foldl historyAppend ([] : List Nat)
        [0, 1, 2, 3, 4, 5, 6, 7, 8, 9, 10]).length = 10 ∧
      (List.foldl historyAppend ([] : List Nat)
        [0, 1, 2, 3, 4, 5, 6, 7, 8, 9, 10]).getLast? =
        ([0, 1, 2, 3, 4, 5, 6, 7, 8, 9, 10] : List Nat).getLast? ∧
      (List.foldl historyAppend ([] : List Nat)
        [0, 1, 2, 3, 4, 5, 6, 7, 8, 9, 10]).head? =
        ([0, 1, 2, 3, 4, 5, 6, 7, 8, 9, 10] : List Nat)[1]?) :=
  ⟨by decide,
    claim_history_eleven Nat [0, 1, 2, 3, 4, 5, 6, 7, 8, 9, 10] (by decide)⟩

/-- C9: the style-suffix transformation is idempotent: for every non-empty
prompt and every selectbox style other than "None", applying the
transformation twice equals applying it once, because the suffix is only
appended when the lowered prompt does not already end with
"in (style) style". -/
theorem claim_style_idempotent (style : String) (p : PyStr)
    (hs : style ∈ styleOptions) (hnone : style ≠ "None") (hp : p ≠ []) :
    applyStyle style.data (applyStyle style.data p) =
      applyStyle style.data p := by
  have hsd : style.data ≠ "None".data := by
    intro e
    exact hnone (by
      have : style = "None" := by
        cases style; cases ("None" : String)
        simp_all
      exact this)
  have hlow : pyLower (pyLower style.data) = pyLower style.data := by
    simp only [styleOptions, List.mem_cons, List.not_mem_nil, or_false] at hs
    rcases hs with h | h | h | h | h | h | h <;> subst h <;> decide
  exact applyStyle_idem_aux style.data hsd hlow p hp

theorem claim_style_idempotent_witness :
    ("Anime" ∈ styleOptions) ∧ ("Anime" : String) ≠ "None" ∧
    ("a cat".data ≠ ([] : List Char)) ∧
    applyStyle "Anime".data (applyStyle "Anime".data "a cat".data) =
      applyStyle "Anime".data "a cat".data :=
  ⟨by decide, by decide, by decide,
    claim_style_idempotent "Anime" "a cat".data (by decide) (by decide)
      (by decide)⟩

/- ------------------------------------------------------------------ -/
/- Characterization of one `generate_image` invocation.                -/
/- ------------------------------------------------------------------ -/

theorem enhanceStep_enhanced (inp : GenInput) (env : Env) :
    (enhanceStep inp env).enhanced = finalPrompt inp env := by
  unfold enhanceStep finalPrompt
  by_cases he : inp.enhance_prompt = true
  · rw [if_pos he, if_pos he]
    cases env.enhanceResult <;> rfl
  · rw [if_neg he, if_neg he]

/-- Full case characterization of `generate_image` when both keys are
present and no unexpected exception occurs in the outer region. -/
theorem generate_image_spec (inp : GenInput) (env : Env) (st : SessionState)
    (hg : inp.groq_api_key ≠ "") (hs : inp.stability_api_key ≠ "")
    (hui : env.uiExc = none) :
    generate_image inp env st =
      (fun e req =>
        if env.status ≠ 200 then
          { image := none, state := st
            msgs := e.msgs ++ [UiMsg.errorStatus env.status env.body]
            groqCalls := e.groqCalls, posts := [req] }
        else
          match env.decodeResult with
          | none =>
              { image := none, state := st
                msgs := e.msgs ++ [UiMsg.errorGenerate]
                groqCalls := e.groqCalls, posts := [req] }
          | some image =>
              match env.saveResult with
              | none =>
                  { image := none
                    state :=
                      { st with prompt_history :=
                          (historyAppend st.prompt_history
                            (inp.text_prompt, e.enhanced)) }
                    msgs := e.msgs ++ [UiMsg.errorGenerate]
                    groqCalls := e.groqCalls, posts := [req] }
              | some img_data =>
                  { image := some image
                    state :=
                      { prompt_history :=
                          (historyAppend st.prompt_history
                            (inp.text_prompt, e.enhanced))
                        generated_images :=
                          (historyAppend st.generated_images
                            (img_data, inp.text_prompt, e.enhanced))
                        current_image := some (image, img_data) }
                    msgs := e.msgs
                    groqCalls := e.groqCalls, posts := [req] })
        (enhanceStep inp env)
        (buildStabilityRequest (enhanceStep inp env).enhanced
          inp.stability_api_key inp.cfg_scale inp.height inp.width
          inp.steps) := by
  unfold generate_image outerTry generateStep generateTry
  rw [if_neg (by simp [hg, hs])]
  simp only [hui]
  by_cases h200 : env.status ≠ 200
  · rw [if_pos h200, if_pos h200]
  · rw [if_neg h200, if_neg h200]
    cases env.decodeResult with
    | none => exact rfl
    | some image =>
        cases env.saveResult with
        | none => exact rfl
        | some img_data => simp

/-- Input with the Groq key missing (empty). -/
def inputNoKeys : GenInput := { sampleInput with groq_api_key := "" }

/-- Input requesting prompt enhancement. -/
def inputEnhance : GenInput := { sampleInput with enhance_prompt := true }

/-- Environment with a non-200 Stability response. -/
def envStatus404 : Env := { envSuccess with status := 404, body := "err" }

theorem historyAppend_nil {α : Type} (x : α) :
    historyAppend ([] : List α) x = [x] := rfl

/-- `generate_image` with both keys present, split on the outer-region
exception. -/
theorem generate_image_eq (inp : GenInput) (env : Env) (st : SessionState)
    (hg : inp.groq_api_key ≠ "") (hs : inp.stability_api_key ≠ "") :
    generate_image inp env st =
      match env.uiExc with
      | some m =>
          { image := none, state := st
            msgs := (enhanceStep inp env).msgs ++ [UiMsg.errorOuter m]
            groqCalls := (enhanceStep inp env).groqCalls, posts := [] }
      | none =>
          { image := (generateStep inp env (enhanceStep inp env).enhanced st).image
            state := (generateStep inp env (enhanceStep inp env).enhanced st).state
            msgs := (enhanceStep inp env).msgs ++
              (generateStep inp env (enhanceStep inp env).enhanced st).msgs
            groqCalls := (enhanceStep inp env).groqCalls
            posts := (generateStep inp env (enhanceStep inp env).enhanced st).posts } := by
  unfold generate_image outerTry
  rw [if_neg (by simp [hg, hs])]
  cases env.uiExc with
  | some m => exact rfl
  | none => exact rfl

/-- C8: if either API key is missing (empty), `generate_image` aborts before
any external call: it returns `None`, surfaces the missing-keys error, makes
no Groq call and no Stability POST, and leaves the session state (both
history buffers and the current-image pointer) unchanged. -/
theorem claim_missing_keys (inp : GenInput) (env : Env) (st : SessionState)
    (h : inp.groq_api_key = "" ∨ inp.stability_api_key = "") :
    generate_image inp env st =
      { image := none, state := st, msgs := [UiMsg.errorMissingKeys]
        groqCalls := 0, posts := [] } := by
  unfold generate_image
  rw [if_pos h]

theorem claim_missing_keys_witness :
    (inputNoKeys.groq_api_key = "" ∨ inputNoKeys.stability_api_key = "") ∧
    generate_image inputNoKeys envSuccess initialState =
      { image := none, state := initialState
        msgs := [UiMsg.errorMissingKeys], groqCalls := 0, posts := [] } :=
  ⟨Or.inl rfl,
    claim_missing_keys inputNoKeys envSuccess initialState (Or.inl rfl)⟩

/-- C10: `generate_image` is total at its public interface: with the keys
missing it returns the early `None`; otherwise the outer try block either
finishes normally with a plain result, or the catch-all handler converts
the escaped exception into a surfaced error message and a `None` return.
No modelled exception propagates to the caller. -/
theorem claim_no_uncaught_exception (inp : GenInput) (env : Env)
    (st : SessionState) :
    ((inp.groq_api_key = "" ∨ inp.stability_api_key = "") →
      generate_image inp env st =
        { image := none, state := st, msgs := [UiMsg.errorMissingKeys]
          groqCalls := 0, posts := [] }) ∧
    (inp.groq_api_key ≠ "" → inp.stability_api_key ≠ "" →
      env.uiExc = none →
      ∃ r : GenResult, outerTry inp env st = Except.ok r ∧
        generate_image inp env st = r) ∧
    (∀ m : String, inp.groq_api_key ≠ "" → inp.stability_api_key ≠ "" →
      env.uiExc = some m →
      generate_image inp env st =
        { image := none, state := st
          msgs := (enhanceStep inp env).msgs ++ [UiMsg.errorOuter m]
          groqCalls := (enhanceStep inp env).groqCalls, posts := [] }) := by
  refine ⟨?_, ?_, ?_⟩
  · intro h
    unfold generate_image
    rw [if_pos h]
  · intro hg hs hui
    unfold generate_image outerTry
    rw [if_neg (by simp [hg, hs]), hui]
    exact ⟨_, rfl, rfl⟩
  · intro m hg hs hui
    unfold generate_image outerTry
    rw [if_neg (by simp [hg, hs]), hui]

theorem claim_no_uncaught_exception_witness :
    ∃ r : GenResult, outerTry sampleInput envSuccess initialState =
      Except.ok r ∧ generate_image sampleInput envSuccess initialState = r :=
  (claim_no_uncaught_exception sampleInput envSuccess initialState).2.1
    (by decide) (by decide) (by decide)

/-- C7: when the pipeline reaches the Image Generator (keys present, no
outer-region exception), it issues exactly one HTTP POST, whose JSON body
carries the final prompt text, the cfg_scale, height, width and steps of
the request, a sample count fixed at 1, and a bearer-token authorization
header built from the supplied Stability key. -/
theorem claim_single_post (inp : GenInput) (env : Env) (st : SessionState)
    (hg : inp.groq_api_key ≠ "") (hs : inp.stability_api_key ≠ "")
    (hui : env.uiExc = none) :
    (generate_image inp env st).posts =
      [{ url := stabilityUrl
         authorization := "Bearer " ++ inp.stability_api_key
         text_prompts := [finalPrompt inp env]
         cfg_scale := inp.cfg_scale
         height := inp.height
         width := inp.width
         samples := 1
         steps := inp.steps }] := by
  rw [generate_image_spec inp env st hg hs hui]
  simp only []
  by_cases h200 : env.status ≠ 200
  · rw [if_pos h200]
    simp [buildStabilityRequest, enhanceStep_enhanced]
  · rw [if_neg h200]
    cases env.decodeResult with
    | none => simp [buildStabilityRequest, enhanceStep_enhanced]
    | some image =>
        cases env.saveResult with
        | none => simp [buildStabilityRequest, enhanceStep_enhanced]
        | some img_data => simp [buildStabilityRequest, enhanceStep_enhanced]

theorem claim_single_post_witness :
    (sampleInput.groq_api_key ≠ "") ∧ (sampleInput.stability_api_key ≠ "") ∧
    (envSuccess.uiExc = none) ∧
    (generate_image sampleInput envSuccess initialState).posts =
      [{ url := stabilityUrl
         authorization := "Bearer " ++ sampleInput.stability_api_key
         text_prompts := [finalPrompt sampleInput envSuccess]
         cfg_scale := sampleInput.cfg_scale
         height := sampleInput.height
         width := sampleInput.width
         samples := 1
         steps := sampleInput.steps }] :=
  ⟨by decide, by decide, by decide,
    claim_single_post sampleInput envSuccess initialState (by decide)
      (by decide) (by decide)⟩

/-- C5: with enhancement disabled and a successful generation, the Groq
call is skipped entirely, the enhanced prompt stored equals the raw prompt
unchanged, the decoded image is returned, and both (initially empty)
history buffers end with exactly one entry, carrying that prompt pair. -/
theorem claim_skip_enhancement (inp : GenInput) (env : Env)
    (hg : inp.groq_api_key ≠ "") (hs : inp.stability_api_key ≠ "")
    (hen : inp.enhance_prompt = false) (hui : env.uiExc = none)
    (h200 : env.status = 200) (image img_data : Nat)
    (hdec : env.decodeResult = some image)
    (hsave : env.saveResult = some img_data) :
    (generate_image inp env initialState).groqCalls = 0 ∧
    finalPrompt inp env = inp.text_prompt ∧
    (generate_image inp env initialState).image = some image ∧
    (generate_image inp env initialState).state.prompt_history =
      [(inp.text_prompt, inp.text_prompt)] ∧
    (generate_image inp env initialState).state.generated_images =
      [(img_data, inp.text_prompt, inp.text_prompt)] := by
  rw [generate_image_spec inp env initialState hg hs hui]
  simp only [hdec, hsave]
  rw [if_neg (by simp [h200])]
  refine ⟨?_, ?_, ?_, ?_, ?_⟩ <;>
    simp [enhanceStep, finalPrompt, hen, initialState, historyAppend_nil]

theorem claim_skip_enhancement_witness :
    (sampleInput.groq_api_key ≠ "") ∧ (sampleInput.stability_api_key ≠ "") ∧
    (sampleInput.enhance_prompt = false) ∧ (envSuccess.uiExc = none) ∧
    (envSuccess.status = 200) ∧ (envSuccess.decodeResult = some 1) ∧
    (envSuccess.saveResult = some 2) ∧
    ((generate_image sampleInput envSuccess initialState).groqCalls = 0 ∧
      finalPrompt sampleInput envSuccess = sampleInput.text_prompt ∧
      (generate_image sampleInput envSuccess initialState).image = some 1 ∧
      (generate_image sampleInput envSuccess initialState).state.prompt_history =
        [(sampleInput.text_prompt, sampleInput.text_prompt)] ∧
      (generate_image sampleInput envSuccess initialState).state.generated_images =
        [(2, sampleInput.text_prompt, sampleInput.text_prompt)]) :=
  ⟨by decide, by decide, by decide, by decide, by decide, by decide, by decide,
    claim_skip_enhancement sampleInput envSuccess (by decide) (by decide)
      (by decide) (by decide) (by decide) 1 2 (by decide) (by decide)⟩

/-- C4: when enhancement is requested for a non-empty prompt and the Groq
call fails, the error is not propagated as a hard failure: a recoverable
warning is surfaced, the final prompt falls back to the raw prompt, and the
rest of the invocation (returned image, session state, issued POSTs) is
exactly what the same invocation with enhancement disabled produces. -/
theorem claim_enhancer_soft_failure (inp : GenInput) (env : Env)
    (st : SessionState) (hg : inp.groq_api_key ≠ "")
    (hs : inp.stability_api_key ≠ "") (_hp : inp.text_prompt ≠ "")
    (hen : inp.enhance_prompt = true) (hf : env.enhanceResult = none) :
    finalPrompt inp env = inp.text_prompt ∧
    UiMsg.warnContinueOriginal ∈ (generate_image inp env st).msgs ∧
    (generate_image inp env st).image =
      (generate_image { inp with enhance_prompt := false } env st).image ∧
    (generate_image inp env st).state =
      (generate_image { inp with enhance_prompt := false } env st).state ∧
    (generate_image inp env st).posts =
      (generate_image { inp with enhance_prompt := false } env st).posts := by
  have hE : enhanceStep inp env =
      { enhanced := inp.text_prompt
        msgs := [UiMsg.errorEnhance, UiMsg.warnContinueOriginal]
        groqCalls := 1 } := by
    simp [enhanceStep, hen, hf]
  have hE' : enhanceStep { inp with enhance_prompt := false } env =
      { enhanced := inp.text_prompt, msgs := [], groqCalls := 0 } := by
    simp [enhanceStep]
  have hfp : finalPrompt inp env = inp.text_prompt := by
    simp [finalPrompt, hen, hf]
  rw [generate_image_eq inp env st hg hs,
    generate_image_eq { inp with enhance_prompt := false } env st hg hs,
    hE, hE']
  cases env.uiExc with
  | some m => exact ⟨hfp, by simp, rfl, rfl, rfl⟩
  | none => exact ⟨hfp, by simp, rfl, rfl, rfl⟩

theorem claim_enhancer_soft_failure_witness :
    (inputEnhance.groq_api_key ≠ "") ∧
    (inputEnhance.stability_api_key ≠ "") ∧
    (inputEnhance.text_prompt ≠ "") ∧
    (inputEnhance.enhance_prompt = true) ∧
    (envSuccess.enhanceResult = none) ∧
    (finalPrompt inputEnhance envSuccess = inputEnhance.text_prompt ∧
      UiMsg.warnContinueOriginal ∈
        (generate_image inputEnhance envSuccess initialState).msgs ∧
      (generate_image inputEnhance envSuccess initialState).image =
        (generate_image { inputEnhance with enhance_prompt := false }
          envSuccess initialState).image ∧
      (generate_image inputEnhance envSuccess initialState).state =
        (generate_image { inputEnhance with enhance_prompt := false }
          envSuccess initialState).state ∧
      (generate_image inputEnhance envSuccess initialState).posts =
        (generate_image { inputEnhance with enhance_prompt := false }
          envSuccess initialState).posts) :=
  ⟨by decide, by decide, by decide, by decide, by decide,
    claim_enhancer_soft_failure inputEnhance envSuccess initialState
      (by decide) (by decide) (by decide) (by decide) (by decide)⟩

/-- C1, counterexample to the claim as stated: with both keys present, a
200 response and a successful decode, a failing PNG re-encode makes
`generate_image` return `None` while `prompt_history` is no longer what it
was before the invocation: the new pair was already appended. -/
theorem claim_buffers_unchanged_counterexample :
    (generate_image sampleInput envSaveFail initialState).image = none ∧
    (generate_image sampleInput envSaveFail initialState).state.prompt_history ≠
      initialState.prompt_history := by decide

/-- C1, amended: when the Image Generator step fails (non-200 status, or a
decode or PNG re-encode exception), `generate_image` returns `None`;
`generated_images` and `current_image` are always left unchanged, and
`prompt_history` is unchanged except when the failure is the PNG re-encode
(after a 200 status and a successful decode), in which case exactly the new
(prompt, enhancedPrompt) pair has been appended to it. -/
theorem claim_generator_hard_failure (inp : GenInput) (env : Env)
    (st : SessionState) (hg : inp.groq_api_key ≠ "")
    (hs : inp.stability_api_key ≠ "") (hui : env.uiExc = none)
    (hfail : env.status ≠ 200 ∨ env.decodeResult = none ∨
      env.saveResult = none) :
    (generate_image inp env st).image = none ∧
    (generate_image inp env st).state.generated_images =
      st.generated_images ∧
    (generate_image inp env st).state.current_image = st.current_image ∧
    (generate_image inp env st).state.prompt_history =
      (if env.status = 200 ∧ env.decodeResult.isSome then
        historyAppend st.prompt_history (inp.text_prompt, finalPrompt inp env)
      else st.prompt_history) := by
  rw [generate_image_spec inp env st hg hs hui]
  simp only []
  by_cases h200 : env.status ≠ 200
  · rw [if_pos h200, if_neg (by simp [h200])]
    exact ⟨rfl, rfl, rfl, rfl⟩
  · rw [if_neg h200]
    have h200' : env.status = 200 := by
      by_contra hc; exact h200 hc
    cases hdec : env.decodeResult with
    | none =>
        rw [if_neg (by simp [hdec])]
        exact ⟨rfl, rfl, rfl, rfl⟩
    | some image =>
        cases hsave : env.saveResult with
        | none =>
            rw [if_pos (by simp [h200', hdec])]
            exact ⟨rfl, rfl, rfl, by rw [enhanceStep_enhanced]⟩
        | some img_data =>
            exfalso
            rcases hfail with h | h | h
            · exact h200 h
            · rw [hdec] at h; exact Option.noConfusion h
            · rw [hsave] at h; exact Option.noConfusion h

theorem claim_generator_hard_failure_witness :
    (sampleInput.groq_api_key ≠ "") ∧ (sampleInput.stability_api_key ≠ "") ∧
    (envStatus404.uiExc = none) ∧
    (envStatus404.status ≠ 200 ∨ envStatus404.decodeResult = none ∨
      envStatus404.saveResult = none) ∧
    ((generate_image sampleInput envStatus404 initialState).image = none ∧
      (generate_image sampleInput envStatus404 initialState).state.generated_images =
        initialState.generated_images ∧
      (generate_image sampleInput envStatus404 initialState).state.current_image =
        initialState.current_image ∧
      (generate_image sampleInput envStatus404 initialState).state.prompt_history =
        (if envStatus404.status = 200 ∧ envStatus404.decodeResult.isSome then
          historyAppend initialState.prompt_history
            (sampleInput.text_prompt, finalPrompt sampleInput envStatus404)
        else initialState.prompt_history)) :=
  ⟨by decide, by decide, by decide, Or.inl (by decide),
    claim_generator_hard_failure sampleInput envStatus404 initialState
      (by decide) (by decide) (by decide) (Or.inl (by decide))⟩

/-- Alignment of the two buffers is preserved by any single invocation
that does not fail exactly at the PNG re-encode step. -/
theorem aligned_step (inp : GenInput) (env : Env) (st : SessionState)
    (hst : aligned st) (h : ¬ savePartialFailure inp env) :
    aligned (generate_image inp env st).state := by
  by_cases hkeys : inp.groq_api_key = "" ∨ inp.stability_api_key = ""
  · unfold generate_image
    rw [if_pos hkeys]
    exact hst
  · push_neg at hkeys
    obtain ⟨hg, hs⟩ := hkeys
    cases hui : env.uiExc with
    | some m =>
        unfold generate_image outerTry
        rw [if_neg (by simp [hg, hs]), hui]
        exact hst
    | none =>
        rw [generate_image_spec inp env st hg hs hui]
        simp only []
        by_cases h200 : env.status ≠ 200
        · rw [if_pos h200]
          exact hst
        · rw [if_neg h200]
          have h200' : env.status = 200 := by
            by_contra hc; exact h200 hc
          cases hdec : env.decodeResult with
          | none => exact hst
          | some image =>
              cases hsave : env.saveResult with
              | none =>
                  exact absurd
                    ⟨hg, hs, hui, h200', by simp [hdec], hsave⟩ h
              | some img_data =>
                  unfold aligned at hst ⊢
                  simp only [historyAppend_map, ← hst]

/-- Alignment is preserved along any sequence of invocations none of which
fails at the PNG re-encode step. -/
theorem aligned_run (invs : List (GenInput × Env)) (st : SessionState)
    (hst : aligned st)
    (h : ∀ ie ∈ invs, ¬ savePartialFailure ie.1 ie.2) :
    aligned (runSequence st invs) := by
  induction invs generalizing st with
  | nil => exact hst
  | cons ie rest ih =>
      unfold runSequence
      rw [List.foldl_cons]
      exact ih (generate_image ie.1 ie.2 st).state
        (aligned_step ie.1 ie.2 st hst (h ie (by simp)))
        (fun x hx => h x (by simp [hx]))

/-- C6, counterexample to the claim as stated: a single invocation failing
at the PNG re-encode leaves the two history buffers with different lengths
(1 and 0), so they are not pairwise aligned after every sequence of
invocations. -/
theorem claim_histories_aligned_counterexample :
    (runSequence initialState [(sampleInput, envSaveFail)]).prompt_history.length = 1 ∧
    (runSequence initialState [(sampleInput, envSaveFail)]).generated_images.length = 0 := by
  decide

/-- C6, amended: after any sequence of invocations in which no invocation
fails exactly at the PNG re-encode step (200 status and successful decode
followed by a failing re-encode), the two history buffers have equal
length and are pairwise aligned: at every position the prompt pair of the
prompt history is the (prompt, enhancedPrompt) projection of the image
history triple, i.e. both entries originate from the same invocation. -/
theorem claim_histories_aligned (invs : List (GenInput × Env))
    (h : ∀ ie ∈ invs, ¬ savePartialFailure ie.1 ie.2) :
    aligned (runSequence initialState invs) ∧
    (runSequence initialState invs).prompt_history.length =
      (runSequence initialState invs).generated_images.length ∧
    ∀ i : Nat,
      (runSequence initialState invs).prompt_history[i]? =
        ((runSequence initialState invs).generated_images[i]?).map
          (fun t => (t.2.1, t.2.2)) := by
  have ha := aligned_run invs initialState rfl h
  have ha' := ha
  unfold aligned at ha'
  refine ⟨ha, ?_, ?_⟩
  · rw [ha', List.length_map]
  · intro i
    rw [ha', List.getElem?_map]

theorem claim_histories_aligned_witness :
    (∀ ie ∈ [(sampleInput, envSuccess)], ¬ savePartialFailure ie.1 ie.2) ∧
    (aligned (runSequence initialState [(sampleInput, envSuccess)]) ∧
      (runSequence initialState [(sampleInput, envSuccess)]).prompt_history.length =
        (runSequence initialState [(sampleInput, envSuccess)]).generated_images.length ∧
      ∀ i : Nat,
        (runSequence initialState [(sampleInput, envSuccess)]).prompt_history[i]? =
          ((runSequence initialState [(sampleInput, envSuccess)]).generated_images[i]?).map
            (fun t => (t.2.1, t.2.2))) :=
  ⟨by decide, claim_histories_aligned [(sampleInput, envSuccess)] (by decide)⟩
